import Mathlib

/-!
Verification of the client-side state synchronization model of the
research-tutor front end: four Zustand stores (Auth, Chat, Document, UI)
above a single API gateway (`ApiService`).  Network calls are modelled by
explicit outcome parameters (`ApiOutcome`): each store action receives the
result the gateway would have produced, so the pure state transition of
the action is captured exactly as written in `src/store/index.ts` and the
logic of the gateway (`handleError`, `isAuthenticated`, token management)
is embedded from `src/services/api.ts`.
-/

namespace ResearchTutor

/-! ## Data model (`src/types/index.ts`) -/

/-- Record `User` (`src/types/index.ts`). -/
structure User where
  id : String
  email : String
  username : String
  full_name : Option String
  institution : Option String
  is_active : Bool
  created_at : String
  deriving Repr, DecidableEq

/-- Record `AuthTokens` returned by the login endpoint. -/
structure AuthTokens where
  access_token : String
  token_type : String
  deriving Repr, DecidableEq

/-- Record `Chat`. -/
structure Chat where
  id : String
  user_id : String
  title : String
  created_at : String
  updated_at : String
  message_count : Option Nat
  deriving Repr, DecidableEq

/-- Record `Source`: a citation attached to an assistant message.  The JS
`similarity_score` is a floating-point number; it is carried as opaque
data and never computed with. -/
structure Source where
  document_id : String
  document_name : String
  chunk_text : String
  similarity_score : Float
  page_number : Option Nat
  deriving Repr

/-- The `metadata` object the store writes on assistant messages
(`{ sources: response.sources }`). -/
structure MessageMetadata where
  sources : Option (List Source)
  deriving Repr

/-- Message role: one of user, assistant, system. -/
inductive Role where
  | user
  | assistant
  | system
  deriving Repr, DecidableEq

/-- Record `Message`. -/
structure Message where
  id : String
  chat_id : String
  role : Role
  content : String
  metadata : Option MessageMetadata := none
  created_at : String
  deriving Repr

/-- Record `ChatWithMessages extends Chat`, the payload of the get-chat endpoint. -/
structure ChatWithMessages extends Chat where
  messages : List Message
  deriving Repr

/-- Record `Document`. -/
structure Document where
  id : String
  user_id : String
  filename : String
  original_filename : String
  file_type : String
  file_size : Nat
  title : Option String
  description : Option String
  category : Option String
  processed : Bool
  processing_error : Option String
  created_at : String
  updated_at : String
  deriving Repr, DecidableEq

/-- Record `RAGQuery`, the request body posted by `sendMessage`. -/
structure RAGQuery where
  query : String
  chat_id : Option String
  document_ids : Option (List String)
  top_k : Option Nat
  deriving Repr

/-- Record `RAGResponse` returned by the post-message endpoint. -/
structure RAGResponse where
  answer : String
  sources : List Source
  message_id : String
  processing_time : Float
  deriving Repr

/-- Record `ChatListResponse`. -/
structure ChatListResponse where
  chats : List Chat
  total : Nat
  deriving Repr

/-- Record `DocumentListResponse`. -/
structure DocumentListResponse where
  documents : List Document
  total : Nat
  deriving Repr

/-! ## API gateway error model (`src/services/api.ts`)

`handleError` receives an arbitrary `unknown` value.  The only structure
it inspects is: whether the value is an Axios error, and if so the
optional chain `response?.data?.detail`.  Non-Axios values are collapsed
into a single constructor since `handleError` treats them all alike. -/

/-- The error body shape `{ detail: string }`; `detail` is `Option`
because the runtime JSON body may lack the field. -/
structure ErrorBody where
  detail : Option String
  deriving Repr, DecidableEq

/-- The `response` object of an Axios error; `data` may be absent at
runtime (the source guards it with `?.`). -/
structure AxiosResponse where
  data : Option ErrorBody
  deriving Repr, DecidableEq

/-- A value thrown into `handleError`: an Axios transport error (with its
optional `response`), or any non-Axios value. -/
inductive ApiError where
  | axiosError (response : Option AxiosResponse)
  | nonAxios
  deriving Repr, DecidableEq

/-- Gateway method `ApiService.handleError` (`src/services/api.ts`):
evaluates `axiosError.response?.data?.detail` with fallback
"An error occurred" for Axios errors (note the JS `||`: an empty-string
`detail` is falsy and falls through), and returns
"An unexpected error occurred" for anything else. -/
def handleError : ApiError → String
  | .axiosError response =>
    match response with
    | some r =>
      match r.data with
      | some b =>
        match b.detail with
        | some d => if d = "" then "An error occurred" else d
        | none => "An error occurred"
      | none => "An error occurred"
    | none => "An error occurred"
  | .nonAxios => "An unexpected error occurred"

/-- Outcome of one gateway call: the parsed response, or the error value
the promise rejected with. -/
inductive ApiOutcome (α : Type) where
  | ok (value : α)
  | fail (e : ApiError)
  deriving Repr

/-- A value thrown out of a store action to its caller: either a locally
constructed `Error(msg)` (precondition violation) or the re-raised
gateway error. -/
inductive Thrown where
  | localError (msg : String)
  | apiError (e : ApiError)
  deriving Repr, DecidableEq

/-! ## Document store (`useDocumentStore`, `src/store/index.ts`) -/

/-- State slice of `useDocumentStore`. -/
structure DocumentState where
  documents : List Document
  selectedDocuments : List String
  currentDocument : Option Document
  isLoading : Bool
  error : Option String
  deriving Repr

/-- Initial state of `useDocumentStore`. -/
def initialDocumentState : DocumentState :=
  { documents := []
    selectedDocuments := []
    currentDocument := none
    isLoading := false
    error := none }

/-- Action `toggleDocumentSelection(documentId)`: if present, filter it out of
`selectedDocuments`; otherwise append it. -/
def DocumentState.toggleDocumentSelection (st : DocumentState)
    (documentId : String) : DocumentState :=
  { st with
    selectedDocuments :=
      if st.selectedDocuments.contains documentId then
        st.selectedDocuments.filter (fun id => id != documentId)
      else
        st.selectedDocuments ++ [documentId] }

/-- Action `fetchDocuments(category?)`: sets loading, clears error, then replaces
`documents` on success or records the normalized error on failure.  The
`category` argument only shapes the outgoing request
(`listDocuments(0, 100, category)`) and never touches local state. -/
def DocumentState.fetchDocuments (st : DocumentState)
    (category : Option String)
    (outcome : ApiOutcome DocumentListResponse) : DocumentState :=
  let st := { st with isLoading := true, error := none }
  let _category := category
  match outcome with
  | .ok response => { st with documents := response.documents, isLoading := false }
  | .fail e => { st with error := some (handleError e), isLoading := false }

/-- Action `uploadDocument(file, metadata?)`: on success prepends the returned
`Document`; on failure records the error and re-raises. -/
def DocumentState.uploadDocument (st : DocumentState)
    (outcome : ApiOutcome Document) : DocumentState × Option Thrown :=
  let st := { st with isLoading := true, error := none }
  match outcome with
  | .ok document =>
    ({ st with documents := document :: st.documents, isLoading := false }, none)
  | .fail e =>
    ({ st with error := some (handleError e), isLoading := false },
     some (.apiError e))

/-- Action `deleteDocument(documentId)`: on success filters the id out of
`documents` and `selectedDocuments` and clears `currentDocument` when it
matches; on failure records the error (no re-raise). -/
def DocumentState.deleteDocument (st : DocumentState) (documentId : String)
    (outcome : ApiOutcome Unit) : DocumentState :=
  let st := { st with isLoading := true, error := none }
  match outcome with
  | .ok _ =>
    { st with
      documents := st.documents.filter (fun d => d.id != documentId)
      selectedDocuments := st.selectedDocuments.filter (fun id => id != documentId)
      currentDocument :=
        match st.currentDocument with
        | some d => if d.id = documentId then none else st.currentDocument
        | none => st.currentDocument
      isLoading := false }
  | .fail e => { st with error := some (handleError e), isLoading := false }

/-- Iterated `toggleDocumentSelection` of the same id, `n` times. -/
def DocumentState.toggleIter (st : DocumentState) (x : String) : Nat → DocumentState
  | 0 => st
  | n + 1 => (st.toggleDocumentSelection x).toggleIter x n

/-- One step of the Document store restricted to the operations of the
duplicate-freedom claim: toggle, delete, fetch. -/
inductive DocOp where
  | toggle (documentId : String)
  | delete (documentId : String) (outcome : ApiOutcome Unit)
  | fetch (category : Option String) (outcome : ApiOutcome DocumentListResponse)

/-- Apply one `DocOp` to the store state. -/
def DocumentState.stepDoc (st : DocumentState) : DocOp → DocumentState
  | .toggle documentId => st.toggleDocumentSelection documentId
  | .delete documentId outcome => st.deleteDocument documentId outcome
  | .fetch category outcome => st.fetchDocuments category outcome

/-- Run a sequence of `DocOp`s. -/
def DocumentState.runDoc (st : DocumentState) (ops : List DocOp) : DocumentState :=
  ops.foldl DocumentState.stepDoc st

/-! ## Chat store (`useChatStore`, `src/store/index.ts`) -/

/-- State slice of `useChatStore`. -/
structure ChatState where
  chats : List Chat
  currentChat : Option Chat
  messages : List Message
  isLoading : Bool
  error : Option String
  deriving Repr

/-- Initial state of `useChatStore`. -/
def initialChatState : ChatState :=
  { chats := []
    currentChat := none
    messages := []
    isLoading := false
    error := none }

/-- Action `addMessage(message)`: appends, as in `[...state.messages, message]`. -/
def ChatState.addMessage (st : ChatState) (message : Message) : ChatState :=
  { st with messages := st.messages ++ [message] }

/-- Action `fetchChats()`: replaces `chats` on success; on failure leaves the
previous list and records the normalized error. -/
def ChatState.fetchChats (st : ChatState)
    (outcome : ApiOutcome ChatListResponse) : ChatState :=
  let st := { st with isLoading := true, error := none }
  match outcome with
  | .ok response => { st with chats := response.chats, isLoading := false }
  | .fail e => { st with error := some (handleError e), isLoading := false }

/-- Action `fetchChat(chatId)`: a single `set` writes `currentChat` and
`messages` together on success; on failure neither is touched and the
normalized error is recorded.  The TS code stores the whole
`ChatWithMessages` object into `currentChat`; no reader accesses fields
beyond `Chat`, so storing the `toChat` projection is observationally
equal.  The `chatId` argument only shapes the outgoing request
(`GET /api/chats/{chatId}`). -/
def ChatState.fetchChat (st : ChatState) (chatId : String)
    (outcome : ApiOutcome ChatWithMessages) : ChatState :=
  let st := { st with isLoading := true, error := none }
  let _chatId := chatId
  match outcome with
  | .ok chat =>
    { st with
      currentChat := some chat.toChat
      messages := chat.messages
      isLoading := false }
  | .fail e => { st with error := some (handleError e), isLoading := false }

/-- Action `createNewChat(title?)`: on success the server-built chat is
prepended, becomes `currentChat` with empty `messages`, and is returned;
on failure the error is recorded and re-raised.  `title` only shapes the
request body, where a missing or empty title falls back to "New Chat". -/
def ChatState.createNewChat (st : ChatState) (title : Option String)
    (outcome : ApiOutcome Chat) : ChatState × Except Thrown Chat :=
  let st := { st with isLoading := true, error := none }
  let _title := title
  match outcome with
  | .ok chat =>
    ({ st with
       chats := chat :: st.chats
       currentChat := some chat
       messages := []
       isLoading := false }, .ok chat)
  | .fail e =>
    ({ st with error := some (handleError e), isLoading := false },
     .error (.apiError e))

/-- Action `deleteChat(chatId)`: on success one `set` filters the chat out of
the list, nulls `currentChat` when its id matches
(`state.currentChat?.id === chatId`), and empties `messages` under the
same condition; on failure records the error (no re-raise). -/
def ChatState.deleteChat (st : ChatState) (chatId : String)
    (outcome : ApiOutcome Unit) : ChatState :=
  let st := { st with isLoading := true, error := none }
  match outcome with
  | .ok _ =>
    { st with
      chats := st.chats.filter (fun c => c.id != chatId)
      currentChat :=
        match st.currentChat with
        | some c => if c.id = chatId then none else st.currentChat
        | none => st.currentChat
      messages :=
        match st.currentChat with
        | some c => if c.id = chatId then [] else st.messages
        | none => st.messages
      isLoading := false }
  | .fail e => { st with error := some (handleError e), isLoading := false }

/-- Action `sendMessage(query, documentIds?)`: throws "No active chat" before
any mutation when `currentChat` is unset; otherwise optimistically
appends the user message (client uuid, current timestamp), then issues
the request with `top_k: 5`; on success appends the assistant message,
on failure records the normalized error and re-raises.  Returns the new
state, the thrown value (if any), and the request actually issued
(`none` = no network call). -/
def ChatState.sendMessage (st : ChatState)
    (uuid nowUser nowAssistant query : String)
    (documentIds : Option (List String))
    (outcome : ApiOutcome RAGResponse) :
    ChatState × Option Thrown × Option (String × RAGQuery) :=
  match st.currentChat with
  | none => (st, some (.localError "No active chat"), none)
  | some currentChat =>
    let userMessage : Message :=
      { id := uuid
        chat_id := currentChat.id
        role := .user
        content := query
        metadata := none
        created_at := nowUser }
    let st := st.addMessage userMessage
    let st := { st with isLoading := true, error := none }
    let request : RAGQuery :=
      { query := query
        chat_id := none
        document_ids := documentIds
        top_k := some 5 }
    match outcome with
    | .ok response =>
      let assistantMessage : Message :=
        { id := response.message_id
          chat_id := currentChat.id
          role := .assistant
          content := response.answer
          metadata := some { sources := some response.sources }
          created_at := nowAssistant }
      ({ st.addMessage assistantMessage with isLoading := false }, none,
       some (currentChat.id, request))
    | .fail e =>
      ({ st with error := some (handleError e), isLoading := false },
       some (.apiError e), some (currentChat.id, request))

/-- The last successful response among a sequence of `fetchChat` calls
(each call is its `chatId` argument paired with its outcome). -/
def lastFetchSuccess :
    List (String × ApiOutcome ChatWithMessages) → Option ChatWithMessages
  | [] => none
  | call :: rest =>
    match lastFetchSuccess rest with
    | some c => some c
    | none =>
      match call.2 with
      | .ok c => some c
      | .fail _ => none

/-- Run a sequence of `fetchChat` calls. -/
def ChatState.fetchChatSeq (st : ChatState)
    (calls : List (String × ApiOutcome ChatWithMessages)) : ChatState :=
  calls.foldl (fun s call => s.fetchChat call.1 call.2) st

/-! ## Auth store (`useAuthStore`) and gateway token state -/

/-- State slice of `useAuthStore` (it has no `error` field). -/
structure AuthState where
  user : Option User
  isAuthenticated : Bool
  isLoading : Bool
  deriving Repr, DecidableEq

/-- The auth store state together with the gateway-owned bearer token
(the access_token entry of localStorage, private to `ApiService`). -/
structure AuthWorld where
  state : AuthState
  token : Option String
  deriving Repr, DecidableEq

/-- Gateway method `ApiService.isAuthenticated()`, i.e. `!!this.getToken()`. -/
def apiIsAuthenticated (token : Option String) : Bool :=
  token.isSome

/-- Action `setUser(user)`, i.e. `set({ user, isAuthenticated: !!user })`. -/
def AuthWorld.setUser (w : AuthWorld) (user : Option User) : AuthWorld :=
  { w with state := { w.state with user := user, isAuthenticated := user.isSome } }

/-- Action `login(email, password)`: sets loading; `apiService.login` persists
the token on success; then `getCurrentUser`; only when both succeed does
the store become authenticated; on either failure, loading is cleared
and the error re-raised, all other fields untouched.  `email` and
`password` only shape the request body. -/
def AuthWorld.login (w : AuthWorld) (email password : String)
    (loginOutcome : ApiOutcome AuthTokens)
    (userOutcome : ApiOutcome User) : AuthWorld × Option Thrown :=
  let w := { w with state := { w.state with isLoading := true } }
  let _creds := (email, password)
  match loginOutcome with
  | .fail e =>
    ({ w with state := { w.state with isLoading := false } }, some (.apiError e))
  | .ok tokens =>
    let w := { w with token := some tokens.access_token }
    match userOutcome with
    | .fail e =>
      ({ w with state := { w.state with isLoading := false } }, some (.apiError e))
    | .ok user =>
      ({ w with
         state := { user := some user, isAuthenticated := true, isLoading := false } },
       none)

/-- Action `logout()`: `apiService.logout()` clears the token (it issues no
network call in the source), then identity resets to anonymous. -/
def AuthWorld.logout (w : AuthWorld) : AuthWorld :=
  { state := { w.state with user := none, isAuthenticated := false }
    token := none }

/-- Action `fetchCurrentUser()`: short-circuits to anonymous with no network
call when no token is present; otherwise fetches the user, becoming
authenticated on success and resetting to anonymous on failure.  The
second component records whether the `getCurrentUser` call was issued.
The `catch` branch swallows the failure: the action returns no thrown
value, and `AuthState` has no error field to record one. -/
def AuthWorld.fetchCurrentUser (w : AuthWorld)
    (userOutcome : ApiOutcome User) : AuthWorld × Bool :=
  if apiIsAuthenticated w.token = false then
    ({ w with state := { w.state with user := none, isAuthenticated := false } },
     false)
  else
    let w := { w with state := { w.state with isLoading := true } }
    match userOutcome with
    | .ok user =>
      ({ w with
         state := { user := some user, isAuthenticated := true, isLoading := false } },
       true)
    | .fail _ =>
      ({ w with
         state := { user := none, isAuthenticated := false, isLoading := false } },
       true)

/-- One Auth store operation together with the gateway outcomes it
consumes. -/
inductive AuthOp where
  | setUser (user : Option User)
  | login (email password : String) (loginOutcome : ApiOutcome AuthTokens)
      (userOutcome : ApiOutcome User)
  | logout
  | fetchCurrentUser (userOutcome : ApiOutcome User)

/-- Auth world extended with a history (ghost) variable: whether the
most recent fetch of the current user succeeded (`none` = no fetch has
happened yet this session). -/
structure AuthGhost where
  world : AuthWorld
  lastFetchOK : Option Bool

/-- Apply one Auth operation; the ghost variable is updated exactly when
`getCurrentUser` is actually called (after a successful credential
exchange inside `login`, or inside `fetchCurrentUser` when a token is
present). -/
def AuthGhost.step (g : AuthGhost) : AuthOp → AuthGhost
  | .setUser user => { g with world := g.world.setUser user }
  | .login email password lo uo =>
    { world := (g.world.login email password lo uo).1
      lastFetchOK :=
        match lo with
        | .ok _ =>
          some (match uo with
                | .ok _ => true
                | .fail _ => false)
        | .fail _ => g.lastFetchOK }
  | .logout => { g with world := g.world.logout }
  | .fetchCurrentUser uo =>
    let r := g.world.fetchCurrentUser uo
    { world := r.1
      lastFetchOK :=
        if r.2 then
          some (match uo with
                | .ok _ => true
                | .fail _ => false)
        else g.lastFetchOK }

/-- Run a sequence of Auth operations. -/
def AuthGhost.run (g : AuthGhost) (ops : List AuthOp) : AuthGhost :=
  ops.foldl AuthGhost.step g

/-- Startup state: zustand `persist` with `partialize: { user }` restores
only `user`; `isAuthenticated` keeps its initial value `false`; the
bearer token may or may not still be in `localStorage`; no fetch has
happened yet. -/
def initialAuthGhost (persistedUser : Option User) (token : Option String) :
    AuthGhost :=
  { world :=
      { state :=
          { user := persistedUser, isAuthenticated := false, isLoading := false }
        token := token }
    lastFetchOK := none }

/-- The invariant of claim C1: `isAuthenticated` iff a bearer token
exists in persisted storage and the most recent fetch of the current
user succeeded. -/
def authInvariant (g : AuthGhost) : Prop :=
  g.world.state.isAuthenticated = true ↔
    (g.world.token.isSome = true ∧ g.lastFetchOK = some true)

/-- The amended specification of `handleError` for claim C6: the
`detail` string when the input is an Axios error whose response body
carries a non-empty `detail`; the fallback `"An error occurred"` for
every other Axios error; and the distinct fallback
`"An unexpected error occurred"` for non-Axios values. -/
def handleErrorAmendedSpec (e : ApiError) : String :=
  match e with
  | .axiosError response =>
    match (response.bind (fun r => r.data)).bind (fun b => b.detail) with
    | some d => if d = "" then "An error occurred" else d
    | none => "An error occurred"
  | .nonAxios => "An unexpected error occurred"

/-! ## Concrete sample values used by witnesses -/

/-- A concrete `User` for witness instantiations. -/
def sampleUser : User :=
  { id := "u1"
    email := "a@b.com"
    username := "alina"
    full_name := none
    institution := none
    is_active := true
    created_at := "2024-01-01T00:00:00Z" }

/-- A concrete `Chat` for witness instantiations. -/
def sampleChat : Chat :=
  { id := "c1"
    user_id := "u1"
    title := "Notes"
    created_at := "t0"
    updated_at := "t0"
    message_count := none }

/-! ### Lemmas about the Document store -/

theorem toggle_mem_iff (st : DocumentState) (x : String) :
    x ∈ (st.toggleDocumentSelection x).selectedDocuments ↔
      x ∉ st.selectedDocuments := by
  unfold DocumentState.toggleDocumentSelection
  by_cases h : x ∈ st.selectedDocuments
  · simp [h, List.mem_filter]
  · simp [h, (by simpa using h : st.selectedDocuments.contains x = false)]

theorem toggle_mem_other (st : DocumentState) (x y : String) (hxy : y ≠ x) :
    (y ∈ (st.toggleDocumentSelection x).selectedDocuments ↔
      y ∈ st.selectedDocuments) := by
  unfold DocumentState.toggleDocumentSelection
  by_cases h : x ∈ st.selectedDocuments
  · simp [h, (by simpa using h : st.selectedDocuments.contains x = true),
      List.mem_filter, hxy]
  · simp [h, (by simpa using h : st.selectedDocuments.contains x = false), hxy]

theorem toggleIter_mem (st : DocumentState) (x : String) (n : Nat) :
    x ∈ (st.toggleIter x n).selectedDocuments ↔
      (if x ∈ st.selectedDocuments then Even n else Odd n) := by
  induction n generalizing st with
  | zero =>
    by_cases h : x ∈ st.selectedDocuments <;>
      simp [DocumentState.toggleIter, h, Nat.even_iff, Nat.odd_iff]
  | succ n ih =>
    rw [DocumentState.toggleIter, ih]
    by_cases h : x ∈ st.selectedDocuments
    · have hx : x ∉ (st.toggleDocumentSelection x).selectedDocuments :=
        fun hm => (toggle_mem_iff st x).mp hm h
      rw [if_pos h, if_neg hx, Nat.even_add_one, Nat.not_even_iff_odd]
    · have hx : x ∈ (st.toggleDocumentSelection x).selectedDocuments :=
        (toggle_mem_iff st x).mpr h
      rw [if_neg h, if_pos hx, Nat.odd_add_one, Nat.not_odd_iff_even]

theorem toggle_nodup (st : DocumentState) (x : String)
    (h : st.selectedDocuments.Nodup) :
    (st.toggleDocumentSelection x).selectedDocuments.Nodup := by
  unfold DocumentState.toggleDocumentSelection
  by_cases hx : x ∈ st.selectedDocuments
  · have hc : st.selectedDocuments.contains x = true := by simpa using hx
    simp only [hc, if_true]
    exact h.filter (fun id => id != x)
  · have hc : st.selectedDocuments.contains x = false := by simpa using hx
    simp only [hc, if_false, Bool.false_eq_true]
    rw [List.nodup_append]
    exact ⟨h, List.nodup_singleton x, by simpa [List.disjoint_singleton] using hx⟩

theorem stepDoc_nodup (st : DocumentState) (op : DocOp)
    (h : st.selectedDocuments.Nodup) :
    (st.stepDoc op).selectedDocuments.Nodup := by
  cases op with
  | toggle documentId => exact toggle_nodup st documentId h
  | delete documentId outcome =>
    cases outcome with
    | ok _ =>
      simpa [DocumentState.stepDoc, DocumentState.deleteDocument] using
        h.filter (fun id => id != documentId)
    | fail e => simpa [DocumentState.stepDoc, DocumentState.deleteDocument] using h
  | fetch category outcome =>
    cases outcome with
    | ok r => simpa [DocumentState.stepDoc, DocumentState.fetchDocuments] using h
    | fail e => simpa [DocumentState.stepDoc, DocumentState.fetchDocuments] using h

theorem runDoc_nodup (st : DocumentState) (ops : List DocOp)
    (h : st.selectedDocuments.Nodup) :
    (st.runDoc ops).selectedDocuments.Nodup := by
  induction ops generalizing st with
  | nil => simpa [DocumentState.runDoc] using h
  | cons op rest ih =>
    exact ih (st.stepDoc op) (stepDoc_nodup st op h)

/-! ### Claims about the Document store -/

/-- Claim C4: for every document id `x`, after any number `n` of
`toggleDocumentSelection(x)` calls applied to a store in which `x` is not
yet selected (in particular the initial Document store), `x` is a member
of `selectedDocuments` iff `n` is odd. -/
theorem C4_toggle_parity (st : DocumentState) (x : String) (n : Nat)
    (h : x ∉ st.selectedDocuments) :
    x ∈ (st.toggleIter x n).selectedDocuments ↔ Odd n := by
  rw [toggleIter_mem]
  simp [h]

/-- Witness for C4: three toggles of `"d1"` on the initial store leave it
selected, and three is odd. -/
theorem C4_toggle_parity_witness :
    ("d1" ∈ (initialDocumentState.toggleIter "d1" 3).selectedDocuments ↔ Odd 3) ∧
      Odd 3 :=
  ⟨C4_toggle_parity initialDocumentState "d1" 3 (by decide), by decide⟩

/-- Claim C10: starting from the initial (empty) selection, every
sequence of `toggleDocumentSelection`, `deleteDocument` and
`fetchDocuments` calls leaves `selectedDocuments` free of duplicates. -/
theorem C10_selected_nodup (ops : List DocOp) :
    (initialDocumentState.runDoc ops).selectedDocuments.Nodup :=
  runDoc_nodup initialDocumentState ops (by decide)

/-! ### Claims about the Chat store -/

/-- Claim C3: `currentChat` and `messages` are replaced together.  After
any sequence of `fetchChat` calls, the pair `(currentChat, messages)` is
exactly the chat and transcript of the last successful response, or the
initial pair if no call succeeded — never the previous transcript paired
with a new chat. -/
theorem C3_fetchChat_atomic (st : ChatState)
    (calls : List (String × ApiOutcome ChatWithMessages)) :
    ((st.fetchChatSeq calls).currentChat, (st.fetchChatSeq calls).messages) =
      match lastFetchSuccess calls with
      | some c => (some c.toChat, c.messages)
      | none => (st.currentChat, st.messages) := by
  induction calls generalizing st with
  | nil => rfl
  | cons call rest ih =>
    simp only [ChatState.fetchChatSeq, List.foldl_cons] at *
    rw [ih]
    cases hrest : lastFetchSuccess rest with
    | some c => simp [lastFetchSuccess, hrest]
    | none =>
      cases ho : call.2 with
      | ok c =>
        simp [lastFetchSuccess, hrest, ho, ChatState.fetchChat]
      | fail e =>
        simp [lastFetchSuccess, hrest, ho, ChatState.fetchChat]

/-- Claim C2: with a non-null `currentChat`, the optimistically appended
user message (client id, role `user`, content = query) is in `messages`
when `sendMessage` completes, whether the gateway call succeeds or
fails; on failure the normalized error is recorded in `error` and the
failure is re-raised to the caller. -/
theorem C2_sendMessage_optimistic (st : ChatState) (c : Chat)
    (uuid nowUser nowAssistant query : String)
    (documentIds : Option (List String)) (outcome : ApiOutcome RAGResponse)
    (h : st.currentChat = some c) :
    ({ id := uuid, chat_id := c.id, role := .user, content := query,
       metadata := none, created_at := nowUser } : Message) ∈
      (st.sendMessage uuid nowUser nowAssistant query documentIds outcome).1.messages ∧
    (∀ e, outcome = .fail e →
      (st.sendMessage uuid nowUser nowAssistant query documentIds outcome).1.error
          = some (handleError e) ∧
      (st.sendMessage uuid nowUser nowAssistant query documentIds outcome).2.1
          = some (.apiError e)) := by
  unfold ChatState.sendMessage
  rw [h]
  cases outcome with
  | ok response => simp [ChatState.addMessage]
  | fail e => simp [ChatState.addMessage]

/-- Witness for C2: on a store whose current chat is `sampleChat`, a
failing `sendMessage` still leaves the optimistic user message in
`messages` and records the normalized error. -/
theorem C2_sendMessage_optimistic_witness :
    (({ id := "m1", chat_id := "c1", role := .user, content := "What is X?",
        metadata := none, created_at := "t1" } : Message) ∈
      (({ initialChatState with currentChat := some sampleChat }).sendMessage
        "m1" "t1" "t2" "What is X?" none (.fail .nonAxios)).1.messages) ∧
    ((({ initialChatState with currentChat := some sampleChat }).sendMessage
        "m1" "t1" "t2" "What is X?" none (.fail .nonAxios)).1.error
      = some (handleError .nonAxios)) :=
  ⟨(C2_sendMessage_optimistic _ sampleChat "m1" "t1" "t2" "What is X?" none
      (.fail .nonAxios) rfl).1,
   ((C2_sendMessage_optimistic _ sampleChat "m1" "t1" "t2" "What is X?" none
      (.fail .nonAxios) rfl).2 .nonAxios rfl).1⟩

/-- Claim C5: `sendMessage` with no `currentChat` throws the
error "No active chat" before any state mutation: the state (its
`messages` and `error` fields included) is returned unchanged and no
request is issued to the gateway. -/
theorem C5_sendMessage_noChat (st : ChatState)
    (uuid nowUser nowAssistant query : String)
    (documentIds : Option (List String)) (outcome : ApiOutcome RAGResponse)
    (h : st.currentChat = none) :
    st.sendMessage uuid nowUser nowAssistant query documentIds outcome =
      (st, some (.localError "No active chat"), none) := by
  unfold ChatState.sendMessage
  rw [h]

/-- Witness for C5: on the initial store (no current chat), `sendMessage`
returns the state unchanged, throws locally, and issues no request. -/
theorem C5_sendMessage_noChat_witness :
    initialChatState.sendMessage "m1" "t1" "t2" "What is X?" none
        (.fail .nonAxios) =
      (initialChatState, some (.localError "No active chat"), none) :=
  C5_sendMessage_noChat initialChatState "m1" "t1" "t2" "What is X?" none
    (.fail .nonAxios) rfl

/-- Claim C7: a successful `deleteChat(chatId)` removes the chat with
that id from `chats`; when `currentChat` has that id, the same
transition nulls `currentChat` and empties `messages`; otherwise both
are left unchanged. -/
theorem C7_deleteChat_success (st : ChatState) (chatId : String) :
    ((st.deleteChat chatId (.ok ())).chats
        = st.chats.filter (fun c => c.id != chatId)) ∧
    ((∃ c, st.currentChat = some c ∧ c.id = chatId) →
      (st.deleteChat chatId (.ok ())).currentChat = none ∧
      (st.deleteChat chatId (.ok ())).messages = []) ∧
    ((∀ c, st.currentChat = some c → c.id ≠ chatId) →
      (st.deleteChat chatId (.ok ())).currentChat = st.currentChat ∧
      (st.deleteChat chatId (.ok ())).messages = st.messages) := by
  unfold ChatState.deleteChat
  refine ⟨rfl, ?_, ?_⟩
  · rintro ⟨c, hc, hid⟩
    rw [hc]
    simp [hid]
  · intro hne
    cases hcc : st.currentChat with
    | none => simp
    | some c => simp [hne c hcc]

/-- Witness for C7: deleting the current chat `"c1"` from a concrete
store clears `currentChat` and `messages` in the same transition. -/
theorem C7_deleteChat_success_witness :
    (({ initialChatState with
          chats := [sampleChat]
          currentChat := some sampleChat }).deleteChat "c1" (.ok ())).currentChat
        = none ∧
    (({ initialChatState with
          chats := [sampleChat]
          currentChat := some sampleChat }).deleteChat "c1" (.ok ())).messages
        = [] :=
  (C7_deleteChat_success _ "c1").2.1 ⟨sampleChat, rfl, rfl⟩

/-- Claim C8: a successful `createNewChat` prepends the returned chat to
`chats`, makes it `currentChat` with empty `messages`, and returns it to
the caller. -/
theorem C8_createNewChat_success (st : ChatState) (title : Option String)
    (chat : Chat) :
    (st.createNewChat title (.ok chat)).1.chats = chat :: st.chats ∧
    (st.createNewChat title (.ok chat)).1.currentChat = some chat ∧
    (st.createNewChat title (.ok chat)).1.messages = [] ∧
    (st.createNewChat title (.ok chat)).2 = Except.ok chat :=
  ⟨rfl, rfl, rfl, rfl⟩

/-! ### Claims about the gateway error normalization -/

/-- Counterexample for C6 as stated: the fallback message is not one
fixed string — an Axios error without a `detail` yields
`"An error occurred"` while a non-Axios value yields the different
string `"An unexpected error occurred"`. -/
theorem C6_handleError_counterexample :
    handleError (.axiosError (some { data := some { detail := none } }))
        = "An error occurred" ∧
    handleError .nonAxios = "An unexpected error occurred" ∧
    "An error occurred" ≠ "An unexpected error occurred" :=
  ⟨rfl, rfl, by decide⟩

/-- Claim C6 (amended): `handleError` is total and returns, for every
input, the `detail` string of an Axios error carrying a non-empty one,
the fallback `"An error occurred"` for every other Axios error, and the
distinct fallback `"An unexpected error occurred"` for non-Axios
values. -/
theorem C6_handleError_amended (e : ApiError) :
    handleError e = handleErrorAmendedSpec e := by
  cases e with
  | nonAxios => rfl
  | axiosError response =>
    cases response with
    | none => rfl
    | some r =>
      obtain ⟨data⟩ := r
      cases data with
      | none => rfl
      | some b =>
        obtain ⟨detail⟩ := b
        cases detail with
        | none => rfl
        | some d => rfl

/-! ### Claims about the Auth store -/

/-- Counterexample for C1 as stated: from the restored startup state
with no persisted user and no token, `setUser(sampleUser)` makes
`isAuthenticated` true although no bearer token exists and no fetch has
succeeded. -/
theorem C1_auth_invariant_counterexample :
    ¬ authInvariant
        ((initialAuthGhost none none).step (.setUser (some sampleUser))) := by
  simp [authInvariant, AuthGhost.step, AuthWorld.setUser, initialAuthGhost,
    sampleUser]

/-- Claim C1 (amended): the invariant `isAuthenticated` iff (a bearer
token exists and the most recent user fetch succeeded) holds after
restoring persisted state on startup, after `logout`, after every
`fetchCurrentUser`, and after every `login` whose two steps both
succeed; it is not maintained by `setUser` (which sets `isAuthenticated`
from its argument alone, ignoring the token) nor by a failed `login`
(which leaves `isAuthenticated` at its prior value). -/
theorem C1_auth_invariant_amended :
    (∀ (persistedUser : Option User) (token : Option String),
      authInvariant (initialAuthGhost persistedUser token)) ∧
    (∀ g : AuthGhost, authInvariant (g.step .logout)) ∧
    (∀ (g : AuthGhost) (uo : ApiOutcome User),
      authInvariant (g.step (.fetchCurrentUser uo))) ∧
    (∀ (g : AuthGhost) (email password : String) (tokens : AuthTokens)
        (user : User),
      authInvariant (g.step (.login email password (.ok tokens) (.ok user)))) := by
  refine ⟨?_, ?_, ?_, ?_⟩
  · intro persistedUser token
    simp [authInvariant, initialAuthGhost]
  · intro g
    simp [authInvariant, AuthGhost.step, AuthWorld.logout]
  · intro g uo
    by_cases htok : g.world.token.isSome
    · cases uo with
      | ok user =>
        simp [authInvariant, AuthGhost.step, AuthWorld.fetchCurrentUser,
          apiIsAuthenticated, htok]
      | fail e =>
        simp [authInvariant, AuthGhost.step, AuthWorld.fetchCurrentUser,
          apiIsAuthenticated, htok]
    · have h0 : g.world.token = none := Option.not_isSome_iff_eq_none.mp htok
      simp [authInvariant, AuthGhost.step, AuthWorld.fetchCurrentUser,
        apiIsAuthenticated, h0]
  · intro g email password tokens user
    simp [authInvariant, AuthGhost.step, AuthWorld.login]

/-- Claim C9: `fetchCurrentUser` with no token resets to anonymous
without issuing a network call; with a token but a failing fetch it
resets to anonymous silently — the action returns no thrown value and
`AuthState` has no error field, so nothing is recorded or raised. -/
theorem C9_fetchCurrentUser_recovery (w : AuthWorld)
    (uo : ApiOutcome User) :
    (w.token = none →
      w.fetchCurrentUser uo =
        ({ w with
           state := { w.state with user := none, isAuthenticated := false } },
         false)) ∧
    (∀ e : ApiError, w.token ≠ none → uo = .fail e →
      (w.fetchCurrentUser uo).1.state.user = none ∧
      (w.fetchCurrentUser uo).1.state.isAuthenticated = false ∧
      (w.fetchCurrentUser uo).2 = true) := by
  constructor
  · intro htok
    simp [AuthWorld.fetchCurrentUser, apiIsAuthenticated, htok]
  · intro e htok huo
    subst huo
    have hsome : w.token.isSome = true := Option.isSome_iff_ne_none.mpr htok
    simp [AuthWorld.fetchCurrentUser, apiIsAuthenticated, hsome]

/-- Witness for C9: concrete worlds — with no token the state resets
with no network call; with a token `"tok"` and a failing fetch the user
is cleared, `isAuthenticated` is false, and the call was issued. -/
theorem C9_fetchCurrentUser_recovery_witness :
    (({ state :=
          { user := some sampleUser, isAuthenticated := true, isLoading := false }
        token := none } : AuthWorld).fetchCurrentUser (.ok sampleUser) =
      ({ state :=
           { user := none, isAuthenticated := false, isLoading := false }
         token := none }, false)) ∧
    ((({ state :=
           { user := some sampleUser, isAuthenticated := true, isLoading := false }
         token := some "tok" } : AuthWorld).fetchCurrentUser
            (.fail .nonAxios)).1.state.user = none ∧
     (({ state :=
           { user := some sampleUser, isAuthenticated := true, isLoading := false }
         token := some "tok" } : AuthWorld).fetchCurrentUser
            (.fail .nonAxios)).1.state.isAuthenticated = false ∧
     (({ state :=
           { user := some sampleUser, isAuthenticated := true, isLoading := false }
         token := some "tok" } : AuthWorld).fetchCurrentUser
            (.fail .nonAxios)).2 = true) :=
  ⟨(C9_fetchCurrentUser_recovery _ (.ok sampleUser)).1 rfl,
   (C9_fetchCurrentUser_recovery _ (.fail .nonAxios)).2 .nonAxios
     (by simp) rfl⟩

end ResearchTutor
